import Mathlib

/-!
Verification of the `srestricted` crate: a wrapper (`SizeRestricted`) around a
linear collection whose length is kept inside a closed range `[MIN, MAX]`.

The backing collection is modelled as a `List T` whose logical end (the side
`push` appends to and `pop` removes from) is the tail of the list.  This is the
canonical model of any type honoring the `LinearSizedCollection` contract:
`len` is the element count, `push` appends one element at the end, `pop`
removes and returns the last element (or reports emptiness), and the bulk
operations `shrink_to` / `extend_to_with` are the trait's default
implementations, translated loop-for-loop from the source (`src/lib.rs`).
`reserve` is a capacity hint with no observable effect on contents, so it is
omitted from the model.

Stateful pieces of the source are made explicit:
  * `FnMut() -> T` fill generators become `Nat → T`, applied at call indices
    `0, 1, 2, …` in the order the source invokes them;
  * methods taking `&mut self` return the updated state;
  * panics (the `assert!`/`unwrap_or_else(panic!)` in `create`, and the
    compile-time `MIN <= MAX` assertion `VALID`) become `Option`, with `none`
    marking the panic.
-/

/-- The two length-range violations (`SizeRangeError` in `src/lib.rs`). -/
inductive SizeRangeError where
  /-- The length was larger than `MAX`. -/
  | TooLarge
  /-- The length was smaller than `MIN`. -/
  | TooSmall
deriving Repr, DecidableEq

/-- Loop body of the default `LinearSizedCollection::shrink_to`: the source
iterates over the range `len..self.len()` (whose extent is fixed on entry) and
calls `pop` once per iteration; `k` is the remaining iteration count and each
`pop` removes the last element (`dropLast`). -/
def LinearSizedCollection.shrinkLoop {T : Type} : List T → Nat → List T
  | c, 0 => c
  | c, k + 1 => LinearSizedCollection.shrinkLoop c.dropLast k

/-- Default `LinearSizedCollection::shrink_to` from `src/lib.rs`: pop
`self.len() - len` times (a saturating difference, since the Rust range
`len..self.len()` is empty when `len >= self.len()`). -/
def LinearSizedCollection.shrink_to {T : Type} (c : List T) (len : Nat) : List T :=
  LinearSizedCollection.shrinkLoop c (c.length - len)

/-- Loop body of `LinearSizedCollection::extend_to_with`: the source iterates
over `self.len()..len` (extent fixed on entry) pushing `fill()` each time; `i`
is the index of the next generator call and `k` the remaining iteration
count. -/
def LinearSizedCollection.extendLoop {T : Type} (fill : Nat → T) : List T → Nat → Nat → List T
  | c, _, 0 => c
  | c, i, k + 1 => LinearSizedCollection.extendLoop fill (c ++ [fill i]) (i + 1) k

/-- Default `LinearSizedCollection::extend_to_with` from `src/lib.rs`: reserve
(no observable effect), then push one generated value per missing slot until
the length reaches `len`. -/
def LinearSizedCollection.extend_to_with {T : Type} (c : List T) (len : Nat) (fill : Nat → T) :
    List T :=
  LinearSizedCollection.extendLoop fill c 0 (len - c.length)

/-- Default `LinearSizedCollection::extend_to`: extend with clones of one
fixed value. -/
def LinearSizedCollection.extend_to {T : Type} (c : List T) (len : Nat) (val : T) : List T :=
  LinearSizedCollection.extend_to_with c len (fun _ => val)

/-- Default `LinearSizedCollection::is_empty`. -/
def LinearSizedCollection.is_empty {T : Type} (c : List T) : Bool :=
  c.length = 0

/-- The `Vec<T>` adapter's `len` (`src/collections/alloc_collections.rs`). -/
def Vec.len {T : Type} (v : List T) : Nat :=
  v.length

/-- The `Vec<T>` adapter's `push`: `Vec::push` appends at the end. -/
def Vec.push {T : Type} (v : List T) (val : T) : List T :=
  v ++ [val]

/-- The `Vec<T>` adapter's `pop`: `Vec::pop` removes and returns the last
element; the mutated vector is returned alongside. -/
def Vec.pop {T : Type} (v : List T) : Option T × List T :=
  (v.getLast?, v.dropLast)

/-- The `Vec<T>` adapter's `shrink_to` override: `Vec::truncate`. -/
def Vec.shrink_to {T : Type} (v : List T) (len : Nat) : List T :=
  v.take len

/-- The `VecDeque<T>` adapter's `len`. -/
def VecDeque.len {T : Type} (v : List T) : Nat :=
  v.length

/-- The `VecDeque<T>` adapter's `push`: `VecDeque::push_back`. -/
def VecDeque.push {T : Type} (v : List T) (val : T) : List T :=
  v ++ [val]

/-- The `VecDeque<T>` adapter's `pop`: `VecDeque::pop_back`. -/
def VecDeque.pop {T : Type} (v : List T) : Option T × List T :=
  (v.getLast?, v.dropLast)

/-- The `VecDeque<T>` adapter's `shrink_to` override: `VecDeque::truncate`. -/
def VecDeque.shrink_to {T : Type} (v : List T) (len : Nat) : List T :=
  v.take len

/-- The `LinkedList<T>` adapter's `len`. -/
def LinkedList.len {T : Type} (v : List T) : Nat :=
  v.length

/-- The `LinkedList<T>` adapter's `push`: `LinkedList::push_back`. -/
def LinkedList.push {T : Type} (v : List T) (val : T) : List T :=
  v ++ [val]

/-- The `LinkedList<T>` adapter's `pop`: `LinkedList::pop_back`. -/
def LinkedList.pop {T : Type} (v : List T) : Option T × List T :=
  (v.getLast?, v.dropLast)

/-- The `String` adapter's `len` (`src/collections/alloc_collections.rs`): a
Rust `String` is modelled as its list of `char`s, and `String::len` returns the
length **in UTF-8 bytes**, the sum of the byte sizes of the chars. -/
def StringImpl.len (s : List Char) : Nat :=
  (s.map Char.utf8Size).sum

/-- The `String` adapter's `push`: `String::push` appends one `char`. -/
def StringImpl.push (s : List Char) (val : Char) : List Char :=
  s ++ [val]

/-- The `String` adapter's `pop`: `String::pop` removes and returns the last
`char`. -/
def StringImpl.pop (s : List Char) : Option Char × List Char :=
  (s.getLast?, s.dropLast)

/-- The wrapper struct `SizeRestricted<T, C, MIN, MAX>` from `src/lib.rs`,
with the backing collection modelled as a `List T`. -/
structure SizeRestricted (T : Type) (MIN MAX : Nat) where
  /-- The inner collection whose size is restricted. -/
  collection : List T
deriving Repr, DecidableEq

/-- The Rust value `usize::MAX` on a 64-bit target, used by the `NonEmpty`
type alias `SizeRestricted<T, C, 1, usize::MAX>`. -/
def USIZE_MAX : Nat :=
  2 ^ 64 - 1

/-- `SizeRestricted::check_fit`: `TooLarge` when the length exceeds `MAX`,
else `TooSmall` when it is below `MIN`, else `Ok`. -/
def SizeRestricted.check_fit {T : Type} (MIN MAX : Nat) (c : List T) :
    Except SizeRangeError Unit :=
  if c.length > MAX then Except.error SizeRangeError.TooLarge
  else if c.length < MIN then Except.error SizeRangeError.TooSmall
  else Except.ok ()

/-- `SizeRestricted::make_fit_with`: heal a violation, shrinking to `MIN` when
too large and extending to `MAX` with `fill` when too small. -/
def SizeRestricted.make_fit_with {T : Type} (MIN MAX : Nat) (c : List T) (fill : Nat → T) :
    List T :=
  match SizeRestricted.check_fit MIN MAX c with
  | Except.ok _ => c
  | Except.error SizeRangeError.TooLarge => LinearSizedCollection.shrink_to c MIN
  | Except.error SizeRangeError.TooSmall => LinearSizedCollection.extend_to_with c MAX fill

/-- `SizeRestricted::make_fit`: `make_fit_with` using `Default::default`, i.e.
a generator returning the same default value on every call. -/
def SizeRestricted.make_fit {T : Type} (MIN MAX : Nat) (dflt : T) (c : List T) : List T :=
  SizeRestricted.make_fit_with MIN MAX c (fun _ => dflt)

/-- `SizeRestricted::create`: asserts the type-level contract `MIN <= MAX`
(`Self::VALID`, a compile-time panic otherwise) and panics unless the
collection fits; both panics are modelled by `none`. -/
def SizeRestricted.create {T : Type} (MIN MAX : Nat) (c : List T) :
    Option (SizeRestricted T MIN MAX) :=
  if MIN ≤ MAX then
    match SizeRestricted.check_fit MIN MAX c with
    | Except.ok _ => some ⟨c⟩
    | Except.error _ => none
  else none

/-- `SizeRestricted::new`: validate, then wrap; on failure return the error
together with the original collection.  The outer `Option` marks the
(unreachable for `MIN <= MAX`) panic points: the `VALID` assertion and the
panic inside `create`. -/
def SizeRestricted.new {T : Type} (MIN MAX : Nat) (c : List T) :
    Option (Except (SizeRangeError × List T) (SizeRestricted T MIN MAX)) :=
  if MIN ≤ MAX then
    match SizeRestricted.check_fit MIN MAX c with
    | Except.ok _ => Option.map Except.ok (SizeRestricted.create MIN MAX c)
    | Except.error e => some (Except.error (e, c))
  else none

/-- `SizeRestricted::new_fit`: normalize with `make_fit` (filling with
`Default::default`, modelled by the constant generator `dflt`), then
`create`. -/
def SizeRestricted.new_fit {T : Type} (MIN MAX : Nat) (dflt : T) (c : List T) :
    Option (SizeRestricted T MIN MAX) :=
  SizeRestricted.create MIN MAX (SizeRestricted.make_fit MIN MAX dflt c)

/-- The `Default` impl for `SizeRestricted`: start from the collection's own
default (empty), extend to `MIN` with default values, then `create`. -/
def SizeRestricted.default {T : Type} (MIN MAX : Nat) (dflt : T) :
    Option (SizeRestricted T MIN MAX) :=
  SizeRestricted.create MIN MAX
    (LinearSizedCollection.extend_to_with [] MIN (fun _ => dflt))

/-- `SizeRestricted::inner`: read-only access to the inner collection. -/
def SizeRestricted.inner {T : Type} (MIN MAX : Nat) (self : SizeRestricted T MIN MAX) :
    List T :=
  self.collection

/-- `SizeRestricted::into_inner`: unwrap, lifting the restriction. -/
def SizeRestricted.into_inner {T : Type} (MIN MAX : Nat) (self : SizeRestricted T MIN MAX) :
    List T :=
  self.collection

/-- `SizeRestricted::push`: refuses with `(TooLarge, val)` when the length is
already `MAX`, otherwise appends via the collection's `push`. -/
def SizeRestricted.push {T : Type} (MIN MAX : Nat) (self : SizeRestricted T MIN MAX) (val : T) :
    Except (SizeRangeError × T) Unit × SizeRestricted T MIN MAX :=
  if self.collection.length = MAX then (Except.error (SizeRangeError.TooLarge, val), self)
  else (Except.ok (), ⟨self.collection ++ [val]⟩)

/-- `SizeRestricted::pop`: returns `none` when the length is already `MIN`
(leaving the collection untouched), otherwise delegates to the collection's
`pop` of the last element. -/
def SizeRestricted.pop {T : Type} (MIN MAX : Nat) (self : SizeRestricted T MIN MAX) :
    Option T × SizeRestricted T MIN MAX :=
  if self.collection.length = MIN then (none, self)
  else (self.collection.getLast?, ⟨self.collection.dropLast⟩)

/-- `SizeRestricted::mutate`: run the mutator on the raw collection once, then
re-normalize with `make_fit_with` using `fill`. -/
def SizeRestricted.mutate {T : Type} (MIN MAX : Nat) (self : SizeRestricted T MIN MAX)
    (fill : Nat → T) (mutator : List T → List T) : SizeRestricted T MIN MAX :=
  ⟨SizeRestricted.make_fit_with MIN MAX (mutator self.collection) fill⟩

/-- One public mutating operation on an existing `SizeRestricted` wrapper. -/
inductive SROp (T : Type) where
  /-- A `push` call (its result value is discarded). -/
  | push (val : T)
  /-- A `pop` call (its result value is discarded). -/
  | pop
  /-- A `mutate` call with the given fill generator and mutator. -/
  | mutate (fill : Nat → T) (mutator : List T → List T)

/-- Apply one public operation to the wrapper state. -/
def SROp.apply {T : Type} (MIN MAX : Nat) (w : SizeRestricted T MIN MAX) :
    SROp T → SizeRestricted T MIN MAX
  | SROp.push val => (SizeRestricted.push MIN MAX w val).2
  | SROp.pop => (SizeRestricted.pop MIN MAX w).2
  | SROp.mutate fill mutator => SizeRestricted.mutate MIN MAX w fill mutator

/-- Apply a sequence of public operations, left to right. -/
def SROp.applyAll {T : Type} (MIN MAX : Nat) (w : SizeRestricted T MIN MAX)
    (ops : List (SROp T)) : SizeRestricted T MIN MAX :=
  ops.foldl (SROp.apply MIN MAX) w

/-- The structural invariant of `SizeRestricted`: the inner length lies in
`[MIN, MAX]`. -/
def SRInv {T : Type} (MIN MAX : Nat) (w : SizeRestricted T MIN MAX) : Prop :=
  MIN ≤ w.collection.length ∧ w.collection.length ≤ MAX

instance {T : Type} (MIN MAX : Nat) (w : SizeRestricted T MIN MAX) :
    Decidable (SRInv MIN MAX w) :=
  inferInstanceAs (Decidable (_ ∧ _))

/-- The default shrink loop pops from the end, so after `k` iterations the
result is the prefix of length `length - k`. -/
theorem LinearSizedCollection.shrinkLoop_eq_take {T : Type} :
    ∀ (k : Nat) (c : List T),
      LinearSizedCollection.shrinkLoop c k = c.take (c.length - k) := by
  intro k
  induction k with
  | zero =>
    intro c
    simp [LinearSizedCollection.shrinkLoop]
  | succ k ih =>
    intro c
    show LinearSizedCollection.shrinkLoop c.dropLast k = c.take (c.length - (k + 1))
    rw [ih c.dropLast, List.length_dropLast, List.dropLast_eq_take, List.take_take]
    have hmin : (c.length - 1 - k) ⊓ (c.length - 1) = c.length - (k + 1) := by
      rw [Nat.min_def]
      split <;> omega
    rw [hmin]

/-- Shrinking to a target no larger than the current length keeps exactly the
first `len` elements. -/
theorem LinearSizedCollection.shrink_to_eq_take {T : Type} (c : List T) (len : Nat)
    (h : len ≤ c.length) :
    LinearSizedCollection.shrink_to c len = c.take len := by
  rw [LinearSizedCollection.shrink_to, LinearSizedCollection.shrinkLoop_eq_take,
    Nat.sub_sub_self h]

/-- Shrinking to a target no larger than the current length yields exactly
that length. -/
theorem LinearSizedCollection.length_shrink_to {T : Type} (c : List T) (len : Nat)
    (h : len ≤ c.length) :
    (LinearSizedCollection.shrink_to c len).length = len := by
  rw [LinearSizedCollection.shrink_to_eq_take c len h, List.length_take, Nat.min_def]
  split <;> omega

/-- The extend loop appends the generator's outputs at call indices
`i, i+1, …, i+k-1`, in order, to the end of the collection. -/
theorem LinearSizedCollection.extendLoop_eq {T : Type} (fill : Nat → T) :
    ∀ (k i : Nat) (c : List T),
      LinearSizedCollection.extendLoop fill c i k = c ++ (List.range' i k).map fill := by
  intro k
  induction k with
  | zero =>
    intro i c
    simp [LinearSizedCollection.extendLoop]
  | succ k ih =>
    intro i c
    show LinearSizedCollection.extendLoop fill (c ++ [fill i]) (i + 1) k = _
    rw [ih (i + 1) (c ++ [fill i]), List.range'_succ, List.append_assoc]
    simp

/-- `extend_to_with` appends the generator's outputs at call indices
`0, …, len - length - 1` to the end of the collection. -/
theorem LinearSizedCollection.extend_to_with_eq {T : Type} (c : List T) (len : Nat)
    (fill : Nat → T) :
    LinearSizedCollection.extend_to_with c len fill
      = c ++ (List.range' 0 (len - c.length)).map fill := by
  rw [LinearSizedCollection.extend_to_with, LinearSizedCollection.extendLoop_eq]

/-- Extending to a target at least the current length yields exactly that
length. -/
theorem LinearSizedCollection.length_extend_to_with {T : Type} (c : List T) (len : Nat)
    (fill : Nat → T) (h : c.length ≤ len) :
    (LinearSizedCollection.extend_to_with c len fill).length = len := by
  rw [LinearSizedCollection.extend_to_with_eq, List.length_append, List.length_map,
    List.length_range']
  omega

/-- Extending with a constant generator appends replicated copies. -/
theorem LinearSizedCollection.extend_to_with_const {T : Type} (c : List T) (len : Nat)
    (dflt : T) :
    LinearSizedCollection.extend_to_with c len (fun _ => dflt)
      = c ++ List.replicate (len - c.length) dflt := by
  rw [LinearSizedCollection.extend_to_with_eq, List.map_const', List.length_range']

/-- `check_fit` succeeds exactly when the length lies in `[MIN, MAX]`. -/
theorem SizeRestricted.check_fit_ok_iff {T : Type} (MIN MAX : Nat) (c : List T) :
    SizeRestricted.check_fit MIN MAX c = Except.ok ()
      ↔ MIN ≤ c.length ∧ c.length ≤ MAX := by
  rw [SizeRestricted.check_fit]
  split
  · constructor
    · intro h
      cases h
    · intro h
      omega
  · split
    · constructor
      · intro h
        cases h
      · intro h
        omega
    · constructor
      · intro _
        omega
      · intro _
        rfl

/-- `check_fit` reports `TooLarge` exactly on lengths above `MAX`. -/
theorem SizeRestricted.check_fit_too_large {T : Type} (MIN MAX : Nat) (c : List T)
    (h : MAX < c.length) :
    SizeRestricted.check_fit MIN MAX c = Except.error SizeRangeError.TooLarge := by
  rw [SizeRestricted.check_fit, if_pos h]

/-- `check_fit` reports `TooSmall` exactly on lengths below `MIN` (when not
already above `MAX`). -/
theorem SizeRestricted.check_fit_too_small {T : Type} (MIN MAX : Nat) (c : List T)
    (h1 : ¬ MAX < c.length) (h2 : c.length < MIN) :
    SizeRestricted.check_fit MIN MAX c = Except.error SizeRangeError.TooSmall := by
  rw [SizeRestricted.check_fit, if_neg h1, if_pos h2]

/-- `make_fit_with` leaves a fitting collection unchanged. -/
theorem SizeRestricted.make_fit_with_of_fit {T : Type} (MIN MAX : Nat) (c : List T)
    (fill : Nat → T) (h1 : MIN ≤ c.length) (h2 : c.length ≤ MAX) :
    SizeRestricted.make_fit_with MIN MAX c fill = c := by
  rw [SizeRestricted.make_fit_with, (SizeRestricted.check_fit_ok_iff MIN MAX c).2 ⟨h1, h2⟩]

/-- `make_fit_with` shrinks a too-large collection to the prefix of length
`MIN`. -/
theorem SizeRestricted.make_fit_with_of_large {T : Type} (MIN MAX : Nat) (c : List T)
    (fill : Nat → T) (hr : MIN ≤ MAX) (h : MAX < c.length) :
    SizeRestricted.make_fit_with MIN MAX c fill = c.take MIN := by
  rw [SizeRestricted.make_fit_with, SizeRestricted.check_fit_too_large MIN MAX c h]
  exact LinearSizedCollection.shrink_to_eq_take c MIN (by omega)

/-- `make_fit_with` extends a too-small collection to length `MAX` with the
generator's outputs. -/
theorem SizeRestricted.make_fit_with_of_small {T : Type} (MIN MAX : Nat) (c : List T)
    (fill : Nat → T) (hr : MIN ≤ MAX) (h : c.length < MIN) :
    SizeRestricted.make_fit_with MIN MAX c fill
      = c ++ (List.range' 0 (MAX - c.length)).map fill := by
  rw [SizeRestricted.make_fit_with,
    SizeRestricted.check_fit_too_small MIN MAX c (by omega) h]
  exact LinearSizedCollection.extend_to_with_eq c MAX fill

/-- After `make_fit_with` the length always lies in `[MIN, MAX]` (given the
type-level contract `MIN ≤ MAX`). -/
theorem SizeRestricted.make_fit_with_length {T : Type} (MIN MAX : Nat) (c : List T)
    (fill : Nat → T) (hr : MIN ≤ MAX) :
    MIN ≤ (SizeRestricted.make_fit_with MIN MAX c fill).length
      ∧ (SizeRestricted.make_fit_with MIN MAX c fill).length ≤ MAX := by
  by_cases h1 : MAX < c.length
  · rw [SizeRestricted.make_fit_with_of_large MIN MAX c fill hr h1, List.length_take,
      Nat.min_def]
    constructor
    · split <;> omega
    · split <;> omega
  · by_cases h2 : c.length < MIN
    · rw [SizeRestricted.make_fit_with_of_small MIN MAX c fill hr h2]
      rw [List.length_append, List.length_map, List.length_range']
      omega
    · rw [SizeRestricted.make_fit_with_of_fit MIN MAX c fill (by omega) (by omega)]
      omega

/-- `create` succeeds on a fitting collection, wrapping it unchanged. -/
theorem SizeRestricted.create_of_fit {T : Type} (MIN MAX : Nat) (c : List T)
    (hr : MIN ≤ MAX) (h1 : MIN ≤ c.length) (h2 : c.length ≤ MAX) :
    SizeRestricted.create MIN MAX c = some ⟨c⟩ := by
  rw [SizeRestricted.create, if_pos hr,
    (SizeRestricted.check_fit_ok_iff MIN MAX c).2 ⟨h1, h2⟩]

/-- Whenever `create` returns a wrapper, the contract held, the collection was
fitting, and it was wrapped unchanged. -/
theorem SizeRestricted.create_some {T : Type} (MIN MAX : Nat) (c : List T)
    (w : SizeRestricted T MIN MAX) (h : SizeRestricted.create MIN MAX c = some w) :
    MIN ≤ MAX ∧ w = ⟨c⟩ ∧ MIN ≤ c.length ∧ c.length ≤ MAX := by
  rw [SizeRestricted.create] at h
  by_cases hr : MIN ≤ MAX
  · rw [if_pos hr] at h
    cases hcf : SizeRestricted.check_fit MIN MAX c with
    | ok u =>
      cases u
      rw [hcf] at h
      have hok := (SizeRestricted.check_fit_ok_iff MIN MAX c).1 hcf
      exact ⟨hr, (Option.some_inj.1 h).symm, hok.1, hok.2⟩
    | error e =>
      rw [hcf] at h
      exact Option.noConfusion h
  · rw [if_neg hr] at h
    exact Option.noConfusion h

/-- Each public mutating operation preserves the invariant. -/
theorem SRInv_apply {T : Type} (MIN MAX : Nat) (hr : MIN ≤ MAX)
    (w : SizeRestricted T MIN MAX) (hw : SRInv MIN MAX w) (op : SROp T) :
    SRInv MIN MAX (SROp.apply MIN MAX w op) := by
  obtain ⟨h1, h2⟩ := hw
  cases op with
  | push val =>
    show SRInv MIN MAX (SizeRestricted.push MIN MAX w val).2
    rw [SizeRestricted.push]
    by_cases h : w.collection.length = MAX
    · rw [if_pos h]
      exact ⟨h1, h2⟩
    · rw [if_neg h]
      simp only [SRInv, List.length_append, List.length_singleton]
      omega
  | pop =>
    show SRInv MIN MAX (SizeRestricted.pop MIN MAX w).2
    rw [SizeRestricted.pop]
    by_cases h : w.collection.length = MIN
    · rw [if_pos h]
      exact ⟨h1, h2⟩
    · rw [if_neg h]
      simp only [SRInv, List.length_dropLast]
      omega
  | mutate fill mutator =>
    show SRInv MIN MAX (SizeRestricted.mutate MIN MAX w fill mutator)
    rw [SizeRestricted.mutate]
    exact SizeRestricted.make_fit_with_length MIN MAX (mutator w.collection) fill hr

/-- Any sequence of public mutating operations preserves the invariant. -/
theorem SRInv_applyAll {T : Type} (MIN MAX : Nat) (hr : MIN ≤ MAX)
    (w : SizeRestricted T MIN MAX) (hw : SRInv MIN MAX w) (ops : List (SROp T)) :
    SRInv MIN MAX (SROp.applyAll MIN MAX w ops) := by
  induction ops generalizing w with
  | nil => exact hw
  | cons op ops ih =>
    exact ih (SROp.apply MIN MAX w op) (SRInv_apply MIN MAX hr w hw op)

/-- A successful `new` establishes the invariant. -/
theorem SizeRestricted.new_ok_inv {T : Type} (MIN MAX : Nat) (c : List T)
    (w : SizeRestricted T MIN MAX)
    (h : SizeRestricted.new MIN MAX c = some (Except.ok w)) : SRInv MIN MAX w := by
  rw [SizeRestricted.new] at h
  by_cases hr : MIN ≤ MAX
  · rw [if_pos hr] at h
    cases hcf : SizeRestricted.check_fit MIN MAX c with
    | ok u =>
      cases u
      rw [hcf] at h
      have hok := (SizeRestricted.check_fit_ok_iff MIN MAX c).1 hcf
      rw [SizeRestricted.create_of_fit MIN MAX c hr hok.1 hok.2] at h
      have hw : Except.ok (ε := SizeRangeError × List T)
          (⟨c⟩ : SizeRestricted T MIN MAX) = Except.ok w := Option.some_inj.1 h
      have hw2 : (⟨c⟩ : SizeRestricted T MIN MAX) = w := by
        injection hw
      rw [← hw2]
      exact ⟨hok.1, hok.2⟩
    | error e =>
      rw [hcf] at h
      exact Except.noConfusion (Option.some_inj.1 h)
  · rw [if_neg hr] at h
    exact Option.noConfusion h

/-- A (necessarily successful for `MIN ≤ MAX`) `new_fit` establishes the
invariant. -/
theorem SizeRestricted.new_fit_some_inv {T : Type} (MIN MAX : Nat) (dflt : T) (c : List T)
    (w : SizeRestricted T MIN MAX)
    (h : SizeRestricted.new_fit MIN MAX dflt c = some w) : SRInv MIN MAX w := by
  rw [SizeRestricted.new_fit] at h
  obtain ⟨hr, hw, hl1, hl2⟩ := SizeRestricted.create_some MIN MAX _ w h
  rw [hw]
  exact ⟨hl1, hl2⟩

/-- A successful `Default::default` establishes the invariant. -/
theorem SizeRestricted.default_some_inv {T : Type} (MIN MAX : Nat) (dflt : T)
    (w : SizeRestricted T MIN MAX)
    (h : SizeRestricted.default MIN MAX dflt = some w) : SRInv MIN MAX w := by
  rw [SizeRestricted.default] at h
  obtain ⟨hr, hw, hl1, hl2⟩ := SizeRestricted.create_some MIN MAX _ w h
  rw [hw]
  exact ⟨hl1, hl2⟩

/-- C1: for every element type, every bound pair with `MIN ≤ MAX`, and any
wrapper produced by a successful `new`, by `new_fit`, or by `default`, the
inner collection's length stays in `[MIN, MAX]` after any sequence of public
operations (`push`, `pop`, `mutate`). -/
theorem SizeRestricted.invariant_preserved (T : Type) (MIN MAX : Nat) (hr : MIN ≤ MAX) :
    (∀ (c : List T) (w : SizeRestricted T MIN MAX),
        SizeRestricted.new MIN MAX c = some (Except.ok w) →
        ∀ ops : List (SROp T), SRInv MIN MAX (SROp.applyAll MIN MAX w ops))
    ∧ (∀ (dflt : T) (c : List T) (w : SizeRestricted T MIN MAX),
        SizeRestricted.new_fit MIN MAX dflt c = some w →
        ∀ ops : List (SROp T), SRInv MIN MAX (SROp.applyAll MIN MAX w ops))
    ∧ (∀ (dflt : T) (w : SizeRestricted T MIN MAX),
        SizeRestricted.default MIN MAX dflt = some w →
        ∀ ops : List (SROp T), SRInv MIN MAX (SROp.applyAll MIN MAX w ops)) := by
  refine ⟨?_, ?_, ?_⟩
  · intro c w h ops
    exact SRInv_applyAll MIN MAX hr w (SizeRestricted.new_ok_inv MIN MAX c w h) ops
  · intro dflt c w h ops
    exact SRInv_applyAll MIN MAX hr w (SizeRestricted.new_fit_some_inv MIN MAX dflt c w h) ops
  · intro dflt w h ops
    exact SRInv_applyAll MIN MAX hr w (SizeRestricted.default_some_inv MIN MAX dflt w h) ops

/-- Witness for C1 at `MIN = 0`, `MAX = 1`: starting from `new` on the empty
collection, a push followed by a pop keeps the length in range. -/
theorem SizeRestricted.invariant_preserved_witness :
    (0 : Nat) ≤ 1
    ∧ SRInv 0 1 (SROp.applyAll 0 1 (⟨[]⟩ : SizeRestricted Nat 0 1)
        [SROp.push 7, SROp.pop]) :=
  ⟨by decide,
    (SizeRestricted.invariant_preserved Nat 0 1 (by decide)).1 [] ⟨[]⟩ (by rfl)
      [SROp.push 7, SROp.pop]⟩

/-- C2: `make_fit_with` follows the asymmetric floor/ceiling policy: a
too-large collection is shrunk to length exactly `MIN` (keeping the first
`MIN` elements), a too-small collection is extended to length exactly `MAX`
with the generator's outputs, and a fitting collection is left unchanged. -/
theorem SizeRestricted.make_fit_with_policy (T : Type) (MIN MAX : Nat) (hr : MIN ≤ MAX)
    (c : List T) (fill : Nat → T) :
    (MAX < c.length →
        SizeRestricted.make_fit_with MIN MAX c fill = c.take MIN
        ∧ (SizeRestricted.make_fit_with MIN MAX c fill).length = MIN)
    ∧ (c.length < MIN →
        SizeRestricted.make_fit_with MIN MAX c fill
            = c ++ (List.range' 0 (MAX - c.length)).map fill
        ∧ (SizeRestricted.make_fit_with MIN MAX c fill).length = MAX)
    ∧ (MIN ≤ c.length → c.length ≤ MAX →
        SizeRestricted.make_fit_with MIN MAX c fill = c) := by
  refine ⟨?_, ?_, ?_⟩
  · intro h
    have he := SizeRestricted.make_fit_with_of_large MIN MAX c fill hr h
    refine ⟨he, ?_⟩
    rw [he, List.length_take, Nat.min_def]
    split <;> omega
  · intro h
    have he := SizeRestricted.make_fit_with_of_small MIN MAX c fill hr h
    refine ⟨he, ?_⟩
    rw [he, List.length_append, List.length_map, List.length_range']
    omega
  · intro h1 h2
    exact SizeRestricted.make_fit_with_of_fit MIN MAX c fill h1 h2

/-- Witness for C2 at bounds `[1, 3]`: a length-4 collection is shrunk to the
floor `MIN = 1`, not to `MAX`. -/
theorem SizeRestricted.make_fit_with_policy_witness :
    SizeRestricted.make_fit_with 1 3 [10, 11, 12, 13] (fun _ => (0 : Nat)) = [10] :=
  ((SizeRestricted.make_fit_with_policy Nat 1 3 (by decide) [10, 11, 12, 13]
    (fun _ => 0)).1 (by decide)).1

/-- C4: under the invariant, `push` appends the value and succeeds when the
length is below `MAX` (afterwards the length has grown by one and an immediate
`pop` returns exactly that value and restores the previous state), and at
length `MAX` it fails with `TooLarge`, hands the value back, and leaves the
wrapper untouched. -/
theorem SizeRestricted.push_spec (T : Type) (MIN MAX : Nat) (w : SizeRestricted T MIN MAX)
    (val : T) (h1 : MIN ≤ w.collection.length) (h2 : w.collection.length ≤ MAX) :
    (w.collection.length < MAX →
        SizeRestricted.push MIN MAX w val = (Except.ok (), ⟨w.collection ++ [val]⟩)
        ∧ (w.collection ++ [val]).length = w.collection.length + 1
        ∧ SizeRestricted.pop MIN MAX ⟨w.collection ++ [val]⟩ = (some val, w))
    ∧ (w.collection.length = MAX →
        SizeRestricted.push MIN MAX w val
          = (Except.error (SizeRangeError.TooLarge, val), w)) := by
  constructor
  · intro h
    refine ⟨?_, ?_, ?_⟩
    · rw [SizeRestricted.push, if_neg (by omega)]
    · rw [List.length_append, List.length_singleton]
    · have hne : ¬ ((⟨w.collection ++ [val]⟩ :
          SizeRestricted T MIN MAX).collection.length = MIN) := by
        show ¬ ((w.collection ++ [val]).length = MIN)
        rw [List.length_append, List.length_singleton]
        omega
      rw [SizeRestricted.pop, if_neg hne]
      show ((w.collection ++ [val]).getLast?, _) = _
      rw [List.getLast?_concat, List.dropLast_concat]
  · intro h
    rw [SizeRestricted.push, if_pos h]

/-- Witness for C4 at bounds `[0, 2]`: pushing into a length-1 wrapper
succeeds and appends. -/
theorem SizeRestricted.push_spec_witness :
    SizeRestricted.push 0 2 (⟨[5]⟩ : SizeRestricted Nat 0 2) 6
      = (Except.ok (), ⟨[5, 6]⟩) :=
  ((SizeRestricted.push_spec Nat 0 2 ⟨[5]⟩ 6 (by decide) (by decide)).1 (by decide)).1

/-- C5: under the invariant, `pop` at a length strictly above `MIN` removes
and returns the last (most recently appended) element, shrinking the length by
one; at length `MIN` it returns `none` and leaves the wrapper untouched, even
when the underlying collection is non-empty. -/
theorem SizeRestricted.pop_spec (T : Type) (MIN MAX : Nat) (w : SizeRestricted T MIN MAX)
    (h1 : MIN ≤ w.collection.length) (h2 : w.collection.length ≤ MAX) :
    (MIN < w.collection.length →
        SizeRestricted.pop MIN MAX w = (w.collection.getLast?, ⟨w.collection.dropLast⟩)
        ∧ (∃ x, w.collection.getLast? = some x)
        ∧ w.collection.dropLast.length = w.collection.length - 1)
    ∧ (w.collection.length = MIN →
        SizeRestricted.pop MIN MAX w = (none, w)) := by
  constructor
  · intro h
    refine ⟨?_, ?_, List.length_dropLast w.collection⟩
    · rw [SizeRestricted.pop, if_neg (by omega)]
    · have hne : w.collection ≠ [] := by
        intro he
        rw [he] at h
        simp at h
      exact Option.isSome_iff_exists.1 (List.getLast?_isSome.2 hne)
  · intro h
    rw [SizeRestricted.pop, if_pos h]

/-- Witness for C5 at bounds `[0, 2]`: popping a length-1 wrapper returns the
element; popping the resulting length-0 (= `MIN`) wrapper returns `none`. -/
theorem SizeRestricted.pop_spec_witness :
    SizeRestricted.pop 0 2 (⟨[5]⟩ : SizeRestricted Nat 0 2) = (some 5, ⟨[]⟩) := by
  have h := ((SizeRestricted.pop_spec Nat 0 2 ⟨[5]⟩ (by decide) (by decide)).1
    (by decide)).1
  exact h

/-- C6: `new` succeeds exactly on lengths in `[MIN, MAX]`, wrapping the
collection unchanged; above `MAX` it fails with `TooLarge` and below `MIN`
with `TooSmall`, each time returning the original collection itself. -/
theorem SizeRestricted.new_spec (T : Type) (MIN MAX : Nat) (hr : MIN ≤ MAX) (c : List T) :
    (MIN ≤ c.length → c.length ≤ MAX →
        SizeRestricted.new MIN MAX c = some (Except.ok ⟨c⟩))
    ∧ (MAX < c.length →
        SizeRestricted.new MIN MAX c
          = some (Except.error (SizeRangeError.TooLarge, c)))
    ∧ (c.length < MIN →
        SizeRestricted.new MIN MAX c
          = some (Except.error (SizeRangeError.TooSmall, c))) := by
  refine ⟨?_, ?_, ?_⟩
  · intro h1 h2
    rw [SizeRestricted.new, if_pos hr,
      (SizeRestricted.check_fit_ok_iff MIN MAX c).2 ⟨h1, h2⟩,
      SizeRestricted.create_of_fit MIN MAX c hr h1 h2]
    rfl
  · intro h
    rw [SizeRestricted.new, if_pos hr, SizeRestricted.check_fit_too_large MIN MAX c h]
  · intro h
    rw [SizeRestricted.new, if_pos hr,
      SizeRestricted.check_fit_too_small MIN MAX c (by omega) h]

/-- Witness for C6 at bounds `[1, 2]`: a fitting collection round-trips, a
length-3 collection is rejected as too large with the original returned, and
the empty collection is rejected as too small with the original returned. -/
theorem SizeRestricted.new_spec_witness :
    SizeRestricted.new 1 2 [(5 : Nat)] = some (Except.ok ⟨[5]⟩)
    ∧ SizeRestricted.new 1 2 [(5 : Nat), 6, 7]
        = some (Except.error (SizeRangeError.TooLarge, [5, 6, 7]))
    ∧ SizeRestricted.new 1 2 ([] : List Nat)
        = some (Except.error (SizeRangeError.TooSmall, [])) :=
  ⟨(SizeRestricted.new_spec Nat 1 2 (by decide) [5]).1 (by decide) (by decide),
    (SizeRestricted.new_spec Nat 1 2 (by decide) [5, 6, 7]).2.1 (by decide),
    (SizeRestricted.new_spec Nat 1 2 (by decide) []).2.2 (by decide)⟩

/-- C10: `mutate` applies the mutator once to the inner collection, and when
the mutator's output already fits in `[MIN, MAX]` the result is exactly the
mutator's output — independent of the fill generator, which is never
consulted. -/
theorem SizeRestricted.mutate_frame_rule (T : Type) (MIN MAX : Nat)
    (w : SizeRestricted T MIN MAX) (fill fill' : Nat → T) (mutator : List T → List T)
    (h1 : MIN ≤ (mutator w.collection).length)
    (h2 : (mutator w.collection).length ≤ MAX) :
    SizeRestricted.mutate MIN MAX w fill mutator = ⟨mutator w.collection⟩
    ∧ SizeRestricted.mutate MIN MAX w fill mutator
        = SizeRestricted.mutate MIN MAX w fill' mutator := by
  have he : ∀ f : Nat → T,
      SizeRestricted.mutate MIN MAX w f mutator = ⟨mutator w.collection⟩ := by
    intro f
    rw [SizeRestricted.mutate,
      SizeRestricted.make_fit_with_of_fit MIN MAX (mutator w.collection) f h1 h2]
  rw [he fill, he fill']
  exact ⟨rfl, rfl⟩

/-- Witness for C10 at bounds `[0, 2]`: a mutator that appends one element to
a length-1 wrapper stays in range, so its output is returned untouched. -/
theorem SizeRestricted.mutate_frame_rule_witness :
    SizeRestricted.mutate 0 2 (⟨[1]⟩ : SizeRestricted Nat 0 2) (fun _ => 7)
      (fun c => c ++ [9]) = ⟨[1, 9]⟩ :=
  (SizeRestricted.mutate_frame_rule Nat 0 2 ⟨[1]⟩ (fun _ => 7) (fun _ => 8)
    (fun c => c ++ [9]) (by decide) (by decide)).1

/-- For any `MAX ≥ 1`, `new_fit` on the empty collection with bounds
`[1, MAX]` extends all the way to the ceiling: it yields the wrapper holding
`MAX` copies of the default value. -/
theorem SizeRestricted.new_fit_empty_eq {T : Type} (M : Nat) (dflt : T) (hM : 1 ≤ M) :
    SizeRestricted.new_fit 1 M dflt [] = some ⟨List.replicate M dflt⟩ := by
  rw [SizeRestricted.new_fit, SizeRestricted.make_fit]
  have he : SizeRestricted.make_fit_with 1 M ([] : List T) (fun _ => dflt)
      = List.replicate M dflt := by
    rw [SizeRestricted.make_fit_with_of_small 1 M [] (fun _ => dflt) hM (by simp),
      List.map_const', List.length_range', List.nil_append]
    simp
  rw [he]
  exact SizeRestricted.create_of_fit 1 M (List.replicate M dflt) hM
    (by rw [List.length_replicate]; omega) (by rw [List.length_replicate])

/-- C3 counterexample: `new_fit` on a length-0 collection with bounds `[1, 5]`
yields a wrapper of length 5 — the ceiling `MAX` — not length 1 as claimed. -/
theorem SizeRestricted.new_fit_empty_one_five_not_length_one :
    SizeRestricted.new_fit 1 5 (0 : Nat) [] = some ⟨[0, 0, 0, 0, 0]⟩
    ∧ ([0, 0, 0, 0, 0] : List Nat).length ≠ 1 := by
  constructor
  · rfl
  · decide

/-- C3 amended: `new_fit` on a length-0 collection with bounds `[1, 5]` yields
a wrapper of length 5, and with bounds `[1, usize::MAX]` (the never-empty
alias) it succeeds and yields a wrapper of length `usize::MAX`, filled with
the generator's output in both cases. -/
theorem SizeRestricted.new_fit_empty_extends_to_ceiling (T : Type) (dflt : T) :
    (SizeRestricted.new_fit 1 5 dflt [] = some ⟨List.replicate 5 dflt⟩
      ∧ (List.replicate 5 dflt).length = 5)
    ∧ (SizeRestricted.new_fit 1 USIZE_MAX dflt []
          = some ⟨List.replicate USIZE_MAX dflt⟩
      ∧ (List.replicate USIZE_MAX dflt).length = USIZE_MAX) :=
  ⟨⟨SizeRestricted.new_fit_empty_eq 5 dflt (by decide),
      List.length_replicate 5 dflt⟩,
    ⟨SizeRestricted.new_fit_empty_eq USIZE_MAX dflt (by decide),
      List.length_replicate USIZE_MAX dflt⟩⟩

/-- The `Vec`/`VecDeque`/`LinkedList` adapters do report the exact element
count, consistently with push/pop: a push raises `len` by exactly one and a
pop on a non-empty collection lowers it by exactly one. -/
theorem veclike_len_push_pop (T : Type) (v : List T) (val : T) (hne : v ≠ []) :
    (Vec.len (Vec.push v val) = Vec.len v + 1
      ∧ (Vec.pop v).2.length = Vec.len v - 1)
    ∧ (VecDeque.len (VecDeque.push v val) = VecDeque.len v + 1
      ∧ (VecDeque.pop v).2.length = VecDeque.len v - 1)
    ∧ (LinkedList.len (LinkedList.push v val) = LinkedList.len v + 1
      ∧ (LinkedList.pop v).2.length = LinkedList.len v - 1) := by
  refine ⟨⟨?_, ?_⟩, ⟨?_, ?_⟩, ⟨?_, ?_⟩⟩ <;>
    simp [Vec.len, Vec.push, Vec.pop, VecDeque.len, VecDeque.push, VecDeque.pop,
      LinkedList.len, LinkedList.push, LinkedList.pop]

/-- C7 fails for the `String` adapter: `String::len` counts UTF-8 bytes, not
chars.  Pushing the single char `'é'` (U+00E9, two bytes in UTF-8) onto the
empty string raises `len` from 0 to 2, not by exactly 1, so `len` is not the
element count the trait documents. -/
theorem StringImpl.len_counts_bytes_not_chars :
    StringImpl.len (StringImpl.push [] 'é') = 2
    ∧ StringImpl.len [] = 0
    ∧ StringImpl.len (StringImpl.push [] 'é') ≠ StringImpl.len [] + 1 := by
  refine ⟨by decide, by decide, by decide⟩

/-- C8 counterexample: the public associated function `create` panics
(modelled by `none`) on an ordinary length-range violation instead of
reporting it through its return value — here with valid bounds `[0, 0]` and a
length-1 collection. -/
theorem SizeRestricted.create_none_on_unfit :
    SizeRestricted.create 0 0 [(0 : Nat)] = none
    ∧ (0 : Nat) ≤ 0
    ∧ 0 < ([(0 : Nat)]).length := by
  refine ⟨rfl, by decide, by decide⟩

/-- C8 amended: apart from `create` (whose panic on an unfit collection is
documented), the public operations report range violations through their
return values and never reach a panic: for `MIN ≤ MAX`, `new`, `new_fit` and
`default` never hit their internal panic points (`push`, `pop`, `mutate`,
`check_fit` and `make_fit_with` are total by their types). -/
theorem SizeRestricted.constructors_never_none (T : Type) (MIN MAX : Nat)
    (hr : MIN ≤ MAX) (c : List T) (dflt : T) :
    SizeRestricted.new MIN MAX c ≠ none
    ∧ SizeRestricted.new_fit MIN MAX dflt c ≠ none
    ∧ SizeRestricted.default MIN MAX dflt ≠ none := by
  refine ⟨?_, ?_, ?_⟩
  · rw [SizeRestricted.new, if_pos hr]
    cases hcf : SizeRestricted.check_fit MIN MAX c with
    | ok u =>
      cases u
      have hok := (SizeRestricted.check_fit_ok_iff MIN MAX c).1 hcf
      rw [SizeRestricted.create_of_fit MIN MAX c hr hok.1 hok.2]
      intro h
      exact Option.noConfusion h
    | error e =>
      intro h
      exact Option.noConfusion h
  · rw [SizeRestricted.new_fit, SizeRestricted.make_fit]
    have hb := SizeRestricted.make_fit_with_length MIN MAX c (fun _ => dflt) hr
    rw [SizeRestricted.create_of_fit MIN MAX _ hr hb.1 hb.2]
    intro h
    exact Option.noConfusion h
  · rw [SizeRestricted.default]
    have hl : (LinearSizedCollection.extend_to_with ([] : List T) MIN
        (fun _ => dflt)).length = MIN :=
      LinearSizedCollection.length_extend_to_with [] MIN (fun _ => dflt) (by simp)
    rw [SizeRestricted.create_of_fit MIN MAX _ hr (by omega) (by omega)]
    intro h
    exact Option.noConfusion h

/-- Witness for the amended C8 at bounds `[0, 1]` with a length-1 input. -/
theorem SizeRestricted.constructors_never_none_witness :
    SizeRestricted.new 0 1 [(5 : Nat)] ≠ none
    ∧ SizeRestricted.new_fit 0 1 (0 : Nat) [5] ≠ none
    ∧ SizeRestricted.default 0 1 (0 : Nat) ≠ none :=
  SizeRestricted.constructors_never_none Nat 0 1 (by decide) [5] 0

/-- C9: for every shipped adapter (`Vec`, `VecDeque`, `LinkedList`, `String`),
two pushes of `a` then `b` followed by pops return `b` then `a`, restoring the
intermediate and the original collection (LIFO at the logical end). -/
theorem adapters_lifo_pop_after_push (T : Type) (c : List T) (a b : T)
    (s : List Char) (x y : Char) :
    (Vec.pop (Vec.push (Vec.push c a) b) = (some b, Vec.push c a)
      ∧ Vec.pop (Vec.push c a) = (some a, c))
    ∧ (VecDeque.pop (VecDeque.push (VecDeque.push c a) b) = (some b, VecDeque.push c a)
      ∧ VecDeque.pop (VecDeque.push c a) = (some a, c))
    ∧ (LinkedList.pop (LinkedList.push (LinkedList.push c a) b)
          = (some b, LinkedList.push c a)
      ∧ LinkedList.pop (LinkedList.push c a) = (some a, c))
    ∧ (StringImpl.pop (StringImpl.push (StringImpl.push s x) y)
          = (some y, StringImpl.push s x)
      ∧ StringImpl.pop (StringImpl.push s x) = (some x, s)) := by
  refine ⟨⟨?_, ?_⟩, ⟨?_, ?_⟩, ⟨?_, ?_⟩, ⟨?_, ?_⟩⟩ <;>
    simp [Vec.pop, Vec.push, VecDeque.pop, VecDeque.push, LinkedList.pop,
      LinkedList.push, StringImpl.pop, StringImpl.push, List.getLast?_concat,
      List.dropLast_concat]
